import Mathlib

/-!
Verification development for the Holdify SDK (TypeScript sources under
packages/core, packages/express, packages/nextjs, packages/hono).

The definitions below are a shallow embedding of the SDK's pure logic:

* JavaScript string truthiness and defaulting idioms are modelled by
  explicit helper functions on Option String.
* JavaScript parseInt on a string is modelled by a partial decimal parser
  returning Option Int, where the value none stands for NaN.
* Thrown error objects become an inductive error taxonomy; async code
  that can throw becomes functions into Except.
* The in-memory TTL cache (a JS Map keyed by strings) becomes an
  association list with unique keys, and the current time is passed
  explicitly where the source reads the wall clock.
-/

namespace HoldifySdk

/-- Models the JavaScript expression x || d for a string x that may be
absent (undefined / null): both an absent string and the empty string are
falsy, so they select the default d. -/
def jsOr : Option String → String → String
  | none, d => d
  | some s, d => if s = "" then d else s

/-- Models the JavaScript expression x || d for a number x that may be
absent: an absent number and the number 0 are falsy. -/
def jsNumOr : Option Int → Int → Int
  | none, d => d
  | some t, d => if t = 0 then d else t

/-- JavaScript string truthiness: an absent string and the empty string
are falsy, every other string is truthy. -/
def jsTruthy : Option String → Bool
  | none => false
  | some s => s != ""

/-- Whitespace skipped by JavaScript parseInt (common ASCII cases). -/
def isJsSpace (c : Char) : Bool :=
  c == ' ' || c == '\t' || c == '\n' || c == '\r'

/-- Value of a list of decimal digit characters. -/
def decDigitsValue (cs : List Char) : Nat :=
  cs.foldl (fun acc c => acc * 10 + (c.toNat - 48)) 0

/-- Models JavaScript parseInt applied to a string (decimal, radix 10):
leading whitespace is skipped, an optional sign is read, then the longest
leading run of decimal digits is converted; if that run is empty the JS
result is NaN, modelled here as none. -/
def jsParseInt (s : String) : Option Int :=
  let cs := s.data.dropWhile isJsSpace
  match cs with
  | '-' :: rest =>
      let ds := rest.takeWhile Char.isDigit
      if ds.isEmpty then none else some (-(decDigitsValue ds : Int))
  | '+' :: rest =>
      let ds := rest.takeWhile Char.isDigit
      if ds.isEmpty then none else some ((decDigitsValue ds : Int))
  | _ =>
      let ds := cs.takeWhile Char.isDigit
      if ds.isEmpty then none else some ((decDigitsValue ds : Int))

/-- A threat reported by prompt analysis (types.ts, PromptThreat). -/
structure PromptThreat where
  threatType : String
  confidence : Int
  description : String
deriving DecidableEq

/-- The SDK error taxonomy (errors.ts). Each constructor corresponds to
one error class; the message stored is the message after the class
constructor applied its default parameter. -/
inductive SdkError where
  /-- HoldifySDKError: the base class, also thrown directly for generic
  failures; carries optional code and status. -/
  | generic (message : String) (code : Option String) (status : Option Nat)
  /-- InvalidKeyError: code INVALID_API_KEY, status 401. -/
  | invalidKey (message : String)
  /-- RateLimitError: code RATE_LIMIT_EXCEEDED, status 429; retryAfter is
  the parseInt result (none models NaN). -/
  | rateLimit (message : String) (retryAfter : Option Int)
  /-- TokenLimitExceededError: code TOKEN_LIMIT_EXCEEDED, status 429. -/
  | tokenLimit (message : String) (limit : Option Int)
      (requested : Option Int) (remaining : Option Int)
  /-- BudgetExceededError: code BUDGET_EXCEEDED, status 402. -/
  | budgetExceeded (message : String) (limit : Option Int)
      (spent : Option Int) (remaining : Option Int) (resetAt : Option String)
  /-- PromptBlockedError: code PROMPT_BLOCKED, status 400. -/
  | promptBlocked (message : String) (riskScore : Int)
      (threats : List PromptThreat)
  /-- NetworkError: code NETWORK_ERROR, no status. -/
  | network (message : String)
deriving DecidableEq

/-- The statusCode field each error class constructor sets (errors.ts). -/
def SdkError.statusCode : SdkError → Option Nat
  | .generic _ _ s => s
  | .invalidKey _ => some 401
  | .rateLimit _ _ => some 429
  | .tokenLimit _ _ _ _ => some 429
  | .budgetExceeded _ _ _ _ _ => some 402
  | .promptBlocked _ _ _ => some 400
  | .network _ => none

/-- The error object inside a JSON error response body, shape
data.error = (message?, code?, limit?, spent?, remaining?, resetAt?,
requested?); every field may be absent. -/
structure ErrorBody where
  message : Option String
  code : Option String
  limit : Option Int
  spent : Option Int
  remaining : Option Int
  resetAt : Option String
  requested : Option Int
deriving DecidableEq

/-- The parts of an HTTP response read by the client's error handling:
the status, the Retry-After header (none when the header is absent), and
the parsed body's error object. errorBody = none models both a body
without an error field and an unparsable body (the source falls back to
the empty object in that case). -/
structure HttpResponse where
  status : Nat
  retryAfterHeader : Option String
  errorBody : Option ErrorBody
deriving DecidableEq

/-- response.ok in the fetch API: status in the range 200..299. -/
def responseOk (status : Nat) : Bool :=
  200 ≤ status && status ≤ 299

/-- Holdify.handleErrorResponse (client.js lines 272-290): classifies a
non-ok response into the error taxonomy. Optional chaining
data.error?.field is Option.bind; class-constructor default parameters
apply only to absent (undefined) arguments, hence Option.getD; the final
generic case uses the JS || idiom, hence jsOr. -/
def handleErrorResponse (r : HttpResponse) : SdkError :=
  if r.status = 401 then
    SdkError.invalidKey ((r.errorBody.bind ErrorBody.message).getD "Invalid API key")
  else if r.status = 402 then
    SdkError.budgetExceeded
      ((r.errorBody.bind ErrorBody.message).getD "Budget limit exceeded")
      (r.errorBody.bind ErrorBody.limit)
      (r.errorBody.bind ErrorBody.spent)
      (r.errorBody.bind ErrorBody.remaining)
      (r.errorBody.bind ErrorBody.resetAt)
  else if r.status = 429 then
    let retryAfter := jsParseInt (jsOr r.retryAfterHeader "60")
    if r.errorBody.bind ErrorBody.code = some "TOKEN_LIMIT_EXCEEDED" then
      SdkError.tokenLimit
        ((r.errorBody.bind ErrorBody.message).getD "Token limit exceeded")
        (r.errorBody.bind ErrorBody.limit)
        (r.errorBody.bind ErrorBody.requested)
        (r.errorBody.bind ErrorBody.remaining)
    else
      SdkError.rateLimit
        ((r.errorBody.bind ErrorBody.message).getD "Rate limit exceeded")
        retryAfter
  else
    SdkError.generic
      (jsOr (r.errorBody.bind ErrorBody.message) "Request failed")
      (r.errorBody.bind ErrorBody.code)
      (some r.status)

/-- The official base URL (client.js line 2). -/
def OFFICIAL_BASE_URL : String := "https://api.holdify.io"

/-- The recognized API key format markers (client.js line 3). -/
def API_KEY_PREFIXES : List String :=
  ["hk_proj_live_", "hk_proj_test_", "hk_live_", "hk_test_"]

/-- JS String.prototype.startsWith, written on the character lists so
that concrete instances evaluate inside the kernel. -/
def jsStartsWith (s marker : String) : Bool :=
  marker.data.isPrefixOf s.data

/-- hasValidPrefix check in the constructor (client.js line 27): some
recognized marker starts the configured key. -/
def keyFormatOk (key : String) : Bool :=
  API_KEY_PREFIXES.any (fun p => jsStartsWith key p)

/-- HoldifyConfig (types.ts): the client-wide budget-warning callback is
modelled by its presence flag here; its behaviour is modelled separately
where the verify path is embedded. -/
structure HoldifyConfig where
  apiKey : String
  baseUrl : Option String
  timeout : Option Int
  hasOnBudgetWarning : Bool
deriving DecidableEq

/-- The state a successfully constructed Holdify client holds. -/
structure HoldifyClient where
  apiKey : String
  baseUrl : String
  timeout : Int
  hasOnBudgetWarning : Bool
deriving DecidableEq

/-- The Holdify constructor (client.js lines 22-41). An empty key is
falsy, so !config.apiKey rejects it with the base error; a key without a
recognized marker is rejected next; otherwise the instance is built with
the JS || defaults for baseUrl and timeout. (The console warning for a
custom baseUrl is diagnostic only and not modelled.) No network request
is part of construction. -/
def mkHoldify (config : HoldifyConfig) : Except SdkError HoldifyClient :=
  if config.apiKey = "" then
    Except.error (SdkError.generic "API key is required" none none)
  else if !(keyFormatOk config.apiKey) then
    Except.error (SdkError.generic
      ("Invalid API key format. Key must start with one of: " ++
        String.intercalate ", " API_KEY_PREFIXES) none none)
  else
    Except.ok
      { apiKey := config.apiKey
        baseUrl := jsOr config.baseUrl OFFICIAL_BASE_URL
        timeout := jsNumOr config.timeout 10000
        hasOnBudgetWarning := config.hasOnBudgetWarning }

/-- BudgetInfo (types.ts): the budget snapshot inside a verify result. -/
structure BudgetInfo where
  limit : Int
  spent : Int
  remaining : Int
  warningThreshold : Int
  warningExceeded : Bool
  resetAt : String
deriving DecidableEq

/-- Rate-limit snapshot inside a verify result (types.ts). -/
structure RateLimitInfo where
  remaining : Int
  limit : Int
  reset : Int
deriving DecidableEq

/-- Quota snapshot inside a verify result (types.ts). -/
structure QuotaInfo where
  remaining : Int
  limit : Int
  resetAt : String
deriving DecidableEq

/-- Token-usage snapshot inside a verify result (types.ts); none models
the JS null that means unlimited. -/
structure UsageInfo where
  tokensUsed : Int
  tokenLimit : Option Int
  tokensRemaining : Option Int
deriving DecidableEq

/-- VerifyResult (types.ts): the decoded body of a successful verify. -/
structure VerifyResult where
  valid : Bool
  rateLimit : RateLimitInfo
  quota : QuotaInfo
  plan : String
  entitlements : List String
  budget : Option BudgetInfo
  usage : Option UsageInfo
deriving DecidableEq

/-- Holdify.maskKey (client.js lines 240-244): keys of length at most 12
are fully masked; longer keys show the first 8 characters, an ellipsis
and the last 4 characters (slice(0, 8) and slice(-4), written on the
character list for direct evaluation). -/
def maskKey (key : String) : String :=
  if key.length ≤ 12 then "***"
  else String.mk (key.data.take 8) ++ "..." ++
    String.mk (key.data.drop (key.length - 4))

/-- BudgetWarningInfo (types.ts): the value handed to warning callbacks.
percentUsed is JS number arithmetic spent / limit * 100, embedded in the
rationals. -/
structure BudgetWarningInfo where
  budget : BudgetInfo
  percentUsed : ℚ
  keyHint : String
deriving DecidableEq

/-- The warningInfo object built in Holdify.verify (client.js lines
73-77) when the budget snapshot reports warningExceeded. -/
def mkBudgetWarningInfo (key : String) (b : BudgetInfo) : BudgetWarningInfo :=
  { budget := b
    percentUsed := ((b.spent : ℚ) / (b.limit : ℚ)) * 100
    keyHint := maskKey key }

/-- One observable callback invocation on the verify success path. -/
inductive CbEvent where
  /-- invocation of the per-call onBudgetWarning option -/
  | perCall (info : BudgetWarningInfo)
  /-- invocation of the client-wide onBudgetWarning callback -/
  | globalCb (info : BudgetWarningInfo)
deriving DecidableEq

/-- The callback invocations Holdify.verify performs on a successful
response (client.js lines 70-83), in order, as a trace: nothing unless
result.budget is present with warningExceeded; otherwise the per-call
callback (when supplied) and then the client-wide callback (when
configured), each once, both with the same warningInfo. -/
def verifyCallbackEvents (key : String) (result : VerifyResult)
    (hasPerCall hasGlobal : Bool) : List CbEvent :=
  match result.budget with
  | some b =>
    if b.warningExceeded then
      (if hasPerCall then [CbEvent.perCall (mkBudgetWarningInfo key b)] else []) ++
      (if hasGlobal then [CbEvent.globalCb (mkBudgetWarningInfo key b)] else [])
    else []
  | none => []

/-- A thrown JS value as seen by a catch clause: either an instance of
the SDK taxonomy or any other exception. -/
inductive JsThrow where
  | sdk (e : SdkError)
  | other (message : String)

/-- Optional-chaining call cb?.(info): absent callback does nothing. -/
def runCallback (cb : Option (BudgetWarningInfo → Except JsThrow Unit))
    (info : BudgetWarningInfo) : Except JsThrow Unit :=
  match cb with
  | none => Except.ok ()
  | some f => f info

/-- The body-handling part of Holdify.verify (client.js lines 63-90) on a
successful HTTP response, with callbacks that may throw. The callback
invocations happen inside verify's try block; its catch clause rethrows
SDK errors unchanged and wraps anything else in
NetworkError('Failed to verify key'). -/
def verifyRun (key : String) (result : VerifyResult)
    (perCall globalCb : Option (BudgetWarningInfo → Except JsThrow Unit)) :
    Except SdkError VerifyResult :=
  let body : Except JsThrow VerifyResult :=
    match result.budget with
    | some b =>
      if b.warningExceeded then
        match runCallback perCall (mkBudgetWarningInfo key b) with
        | Except.error e => Except.error e
        | Except.ok _ =>
          match runCallback globalCb (mkBudgetWarningInfo key b) with
          | Except.error e => Except.error e
          | Except.ok _ => Except.ok result
      else Except.ok result
    | none => Except.ok result
  match body with
  | Except.ok r => Except.ok r
  | Except.error (JsThrow.sdk e) => Except.error e
  | Except.error (JsThrow.other _) =>
      Except.error (SdkError.network "Failed to verify key")

/-- AnalyzePromptResult (types.ts): the decoded body of an
analyze-prompt response; explanation may be absent. -/
structure AnalyzePromptResult where
  safe : Bool
  blocked : Bool
  riskScore : Int
  threats : List PromptThreat
  action : String
  explanation : Option String
deriving DecidableEq

/-- Holdify.analyzePrompt (client.js lines 220-239) after the request
completes: a non-ok status is classified by handleErrorResponse; on any
ok status a body with blocked = true raises PromptBlockedError built
from the body (message: explanation || default, the JS || idiom), and
the catch clause rethrows it unchanged because it is an SDK error; a
body with blocked = false is returned. -/
def analyzePrompt (resp : HttpResponse) (body : AnalyzePromptResult) :
    Except SdkError AnalyzePromptResult :=
  if responseOk resp.status then
    if body.blocked then
      Except.error (SdkError.promptBlocked
        (jsOr body.explanation "Prompt blocked due to security policy")
        body.riskScore body.threats)
    else Except.ok body
  else Except.error (handleErrorResponse resp)

/-- A cache entry (cache.js): a value plus the absolute expiry instant
recorded at set-time, in milliseconds of wall-clock time. -/
structure CacheEntry (α : Type) where
  value : α
  expiresAt : Int
deriving DecidableEq

/-- The Cache class (cache.js): its Map store is modelled by an
association list with at most one entry per key; Date.now() is passed in
explicitly as now. The background sweep interval handle is not part of
the value state. -/
structure Cache (α : Type) where
  defaultTtl : Int
  store : List (String × CacheEntry α)
deriving DecidableEq

/-- Map.prototype.get on the modelled store. -/
def storeFind {α : Type} (store : List (String × CacheEntry α))
    (key : String) : Option (CacheEntry α) :=
  (store.find? (fun p => p.1 == key)).map Prod.snd

/-- Map.prototype.delete on the modelled store (keys are unique, so
erasing the first match is erasing the match). -/
def storeDelete {α : Type} (store : List (String × CacheEntry α))
    (key : String) : List (String × CacheEntry α) :=
  store.eraseP (fun p => p.1 == key)

/-- Map.prototype.set on the modelled store: replace in place when the
key exists, append otherwise. -/
def storeSet {α : Type} (store : List (String × CacheEntry α))
    (key : String) (e : CacheEntry α) : List (String × CacheEntry α) :=
  if (store.find? (fun p => p.1 == key)).isSome then
    store.map (fun p => if p.1 == key then (key, e) else p)
  else store ++ [(key, e)]

/-- Cache.get (cache.js lines 39-49): a missing entry is absent; an
entry with Date.now() strictly greater than its expiresAt is deleted
from the store and reported absent; otherwise its value is returned.
The returned pair is (result, cache state after the call). -/
def Cache.get {α : Type} (c : Cache α) (now : Int) (key : String) :
    Option α × Cache α :=
  match storeFind c.store key with
  | none => (none, c)
  | some entry =>
    if now > entry.expiresAt then
      (none, { defaultTtl := c.defaultTtl, store := storeDelete c.store key })
    else (some entry.value, c)

/-- Cache.set (cache.js lines 56-61): stores the value with
expiresAt = Date.now() + ttl; ttl defaults to the instance default. -/
def Cache.set {α : Type} (c : Cache α) (now : Int) (key : String)
    (value : α) (ttl : Option Int) : Cache α :=
  { defaultTtl := c.defaultTtl
    store := storeSet c.store key
      { value := value, expiresAt := now + ttl.getD c.defaultTtl } }

/-- Cache.has (cache.js lines 67-69): this.get(key) !== undefined,
including get's lazy deletion side effect. -/
def Cache.has {α : Type} (c : Cache α) (now : Int) (key : String) :
    Bool × Cache α :=
  let r := Cache.get c now key
  (r.1.isSome, r.2)

/-- The size getter (cache.js lines 88-90): current number of stored
entries, expired-but-unswept ones included. -/
def Cache.size {α : Type} (c : Cache α) : Nat :=
  c.store.length

/-- Cache.cleanup (cache.js lines 102-109), the periodic sweep body:
removes every entry whose expiry instant has strictly passed. -/
def Cache.cleanup {α : Type} (c : Cache α) (now : Int) : Cache α :=
  { defaultTtl := c.defaultTtl
    store := c.store.filter (fun p => !(now > p.2.expiresAt)) }

/-- The three request locations the middleware's default key extraction
reads (nextjs middleware.js lines 3-23): the authorization header, the
x-api-key header, and the api_key query parameter; none models an absent
header or parameter. -/
structure MwRequest where
  authorization : Option String
  xApiKeyHeader : Option String
  apiKeyQuery : Option String
deriving DecidableEq

/-- Result of the default key extraction: the extracted key, if any, and
whether the query-parameter warning was logged. -/
structure KeyExtraction where
  key : Option String
  warnedQueryKey : Bool
deriving DecidableEq

/-- Whether authHeader?.startsWith('Bearer ') holds for the request. -/
def bearerMatches (req : MwRequest) : Bool :=
  match req.authorization with
  | some a => jsStartsWith a "Bearer "
  | none => false

/-- The x-api-key and query-parameter steps of defaultGetKey, reached
when the authorization header does not carry a Bearer token: a truthy
x-api-key header wins, else a truthy api_key query parameter is used
after logging the warning, else no key is found. -/
def keyFallback (req : MwRequest) : KeyExtraction :=
  if jsTruthy req.xApiKeyHeader then
    { key := req.xApiKeyHeader, warnedQueryKey := false }
  else if jsTruthy req.apiKeyQuery then
    { key := req.apiKeyQuery, warnedQueryKey := true }
  else { key := none, warnedQueryKey := false }

/-- defaultGetKey (nextjs middleware.js lines 3-23): an authorization
header starting with the Bearer marker returns the rest of that header
(slice(7), written on the character list) and consults nothing else;
otherwise the remaining sources are tried in order. -/
def defaultGetKey (req : MwRequest) : KeyExtraction :=
  match req.authorization with
  | some a =>
    if jsStartsWith a "Bearer " then
      { key := some (String.mk (a.data.drop 7)), warnedQueryKey := false }
    else keyFallback req
  | none => keyFallback req

/-- What the middleware does before its first network call. -/
inductive MwOutcome where
  /-- the error handler ran with this code, message, status and the
  pipeline short-circuited with no network call -/
  | errorHandled (code : String) (message : String) (status : Nat)
  /-- client.verify was invoked with this key (the first network call) -/
  | verifyCalled (key : String)
deriving DecidableEq

/-- The head of the middleware handler (nextjs middleware.js lines
74-79): extract the key with the default policy; a falsy key (absent or
empty) raises HoldifyError('MISSING_KEY', 'API key is required', 401)
through the error handler before any network call; otherwise verify is
invoked with the key. -/
def middlewareStep (req : MwRequest) : MwOutcome :=
  match (defaultGetKey req).key with
  | none => MwOutcome.errorHandled "MISSING_KEY" "API key is required" 401
  | some k =>
    if k = "" then MwOutcome.errorHandled "MISSING_KEY" "API key is required" 401
    else MwOutcome.verifyCalled k

/-- The usage block of an OpenAI chat-completion response as read by the
wrapper (openai.ts lines 100-107); every field may be absent. -/
structure OpenAIUsage where
  prompt_tokens : Option Int
  completion_tokens : Option Int
  total_tokens : Option Int
deriving DecidableEq

/-- The parts of an OpenAI response the wrapper reads. -/
structure OpenAIResponse where
  usage : Option OpenAIUsage
  model : Option String
deriving DecidableEq

/-- The argument object the wrapper passes to holdify.reportUsage
(openai.ts lines 111-117). -/
structure ReportUsageCall where
  key : String
  inputTokens : Int
  outputTokens : Int
  totalTokens : Option Int
  model : Option String
  requestId : Option String
deriving DecidableEq

/-- Outcome of awaiting the wrapped provider's create call: a response,
or the exception it threw (carried as an opaque message). -/
inductive ProviderOutcome (α : Type) where
  | ok (response : α)
  | threw (message : String)
deriving DecidableEq

/-- Everything observable about one invocation of the wrapped create
entry point: what its caller receives, which reportUsage calls were
issued, and which report failures were logged to the console. -/
structure WrapOutcome where
  result : ProviderOutcome OpenAIResponse
  reports : List ReportUsageCall
  warningsLogged : List String
deriving DecidableEq

/-- The wrapped create function installed by wrapCompletionsNamespace
(openai.ts lines 95-124): the provider call is awaited first, so a
provider exception propagates before any reporting; on a response with a
usage block, reportUsage is issued fire-and-forget — its rejection is
consumed by the attached catch handler, which only logs a console
warning — and the provider's response is returned unchanged either way. -/
def wrappedCreate (apiKey : String) (requestId : Option String)
    (provider : ProviderOutcome OpenAIResponse)
    (reportUsage : ReportUsageCall → Except JsThrow Unit) : WrapOutcome :=
  match provider with
  | ProviderOutcome.threw e =>
      { result := ProviderOutcome.threw e, reports := [], warningsLogged := [] }
  | ProviderOutcome.ok resp =>
    match resp.usage with
    | none => { result := ProviderOutcome.ok resp, reports := [], warningsLogged := [] }
    | some u =>
      let call : ReportUsageCall :=
        { key := apiKey
          inputTokens := u.prompt_tokens.getD 0
          outputTokens := u.completion_tokens.getD 0
          totalTokens := u.total_tokens
          model := resp.model
          requestId := requestId }
      match reportUsage call with
      | Except.ok _ =>
          { result := ProviderOutcome.ok resp, reports := [call], warningsLogged := [] }
      | Except.error _ =>
          { result := ProviderOutcome.ok resp, reports := [call],
            warningsLogged := ["[Holdify] Failed to report usage"] }

/-! ## Theorems for the claims -/

/-- Claim C1, counterexample: the claim says the RateLimitExceeded error's
retryAfter equals 60 whenever the Retry-After header is absent or
unparsable; but for a 429 response whose Retry-After header is the
unparsable string "soon", the code stores parseInt("soon"), which is NaN
(modelled none), not 60. -/
theorem c1_counterexample :
    handleErrorResponse ⟨429, some "soon", none⟩ =
      SdkError.rateLimit "Rate limit exceeded" none := rfl

/-- Claim C1, amended: every 429 response fails with TokenLimitExceeded
(limit, requested, remaining from the body) exactly when the body's error
code is the sentinel TOKEN_LIMIT_EXCEEDED, and otherwise with
RateLimitExceeded whose retryAfter is parseInt applied to the Retry-After
header defaulted to "60"; retryAfter equals 60 when the header is absent
(or empty), and is NaN (none) when the header is present, non-empty and
unparsable. -/
theorem c1_amended (r : HttpResponse) (h429 : r.status = 429) :
    (∀ e, r.errorBody = some e → e.code = some "TOKEN_LIMIT_EXCEEDED" →
      handleErrorResponse r =
        SdkError.tokenLimit (e.message.getD "Token limit exceeded")
          e.limit e.requested e.remaining) ∧
    (r.errorBody.bind ErrorBody.code ≠ some "TOKEN_LIMIT_EXCEEDED" →
      handleErrorResponse r =
        SdkError.rateLimit ((r.errorBody.bind ErrorBody.message).getD "Rate limit exceeded")
          (jsParseInt (jsOr r.retryAfterHeader "60"))) ∧
    (r.retryAfterHeader = none →
      jsParseInt (jsOr r.retryAfterHeader "60") = some 60) ∧
    (∀ s, r.retryAfterHeader = some s → s ≠ "" → jsParseInt s = none →
      jsParseInt (jsOr r.retryAfterHeader "60") = none) := by
  refine ⟨?_, ?_, ?_, ?_⟩
  · intro e he hcode
    simp [handleErrorResponse, h429, he, hcode]
  · intro hcode
    simp [handleErrorResponse, h429, hcode]
  · intro hnone
    rw [hnone]
    rfl
  · intro s hs hne hnp
    rw [hs]
    simpa [jsOr, hne] using hnp

/-- Claim C1, witness: a 429 response with the token-limit sentinel code
and body fields limit 100, requested 120, remaining 5 fails with
TokenLimitExceeded carrying exactly those fields. -/
theorem c1_amended_witness :
    handleErrorResponse
      ⟨429, none, some ⟨some "tl", some "TOKEN_LIMIT_EXCEEDED", some 100, none,
        some 5, none, some 120⟩⟩ =
      SdkError.tokenLimit "tl" (some 100) (some 120) (some 5) :=
  (c1_amended ⟨429, none, some ⟨some "tl", some "TOKEN_LIMIT_EXCEEDED", some 100,
    none, some 5, none, some 120⟩⟩ rfl).1 _ rfl rfl

/-- Claim C2, counterexample: the claim says get returns absent as soon
as now is greater than OR EQUAL to the stored expiry instant; but for an
entry with expiresAt = 100 read at now = 100 the source's strict
comparison Date.now() > expiresAt is false, so get still returns the
value. -/
theorem c2_counterexample :
    (Cache.get (⟨300000, [("k", ⟨(7 : Nat), 100⟩)]⟩ : Cache Nat) 100 "k").1 =
      some 7 := rfl

/-- Claim C2, amended: get returns absent as soon as the current time is
STRICTLY greater than the entry's stored expiry instant (now > expiresAt;
at now = expiresAt the value is still returned), even if the periodic
background sweep has not run; the expired entry is removed from the store
on that get. -/
theorem c2_amended {α : Type} (c : Cache α) (now : Int) (key : String)
    (e : CacheEntry α) (hf : storeFind c.store key = some e)
    (hlt : now > e.expiresAt) :
    (Cache.get c now key).1 = none ∧
    (Cache.get c now key).2.store = storeDelete c.store key := by
  unfold Cache.get
  rw [hf]
  simp [hlt]

/-- Claim C2, witness: an entry with expiry instant 100 read at time 101
is reported absent and deleted from the store. -/
theorem c2_amended_witness :
    (Cache.get (⟨300000, [("k", ⟨(7 : Nat), 100⟩)]⟩ : Cache Nat) 101 "k").1 = none ∧
    (Cache.get (⟨300000, [("k", ⟨(7 : Nat), 100⟩)]⟩ : Cache Nat) 101 "k").2.store =
      storeDelete [("k", ⟨(7 : Nat), 100⟩)] "k" :=
  c2_amended ⟨300000, [("k", ⟨(7 : Nat), 100⟩)]⟩ 101 "k" ⟨7, 100⟩ rfl (by decide)

/-- Claim C3, code evaluated at the failing input: the claim (and the
spec's stated intent) is that an exception thrown by a supplied
budget-warning callback is not propagated to the verify caller; but the
source invokes the callbacks inside verify's try block with no isolation,
so a throwing per-call callback turns the successful verification into a
NetworkError failure instead of returning the result. -/
theorem c3_callback_throw_eval :
    verifyRun "hk_live_abcdefghijklmnop"
      ⟨true, ⟨99, 100, 0⟩, ⟨5, 10, "2026-02-01T00:00:00Z"⟩, "pro", [],
        some ⟨100, 80, 20, 75, true, "2026-01-01T00:00:00Z"⟩, none⟩
      (some (fun _ => Except.error (JsThrow.other "callback boom"))) none =
    Except.error (SdkError.network "Failed to verify key") := rfl

/-- Claim C4: on a successful verify whose budget snapshot has
warningExceeded, the per-call callback and then the client-wide callback
are each invoked exactly once, in that order, with the same warning info;
its percentUsed is spent / limit * 100 and its keyHint is the masked
credential: first 8 characters, an ellipsis and the last 4 characters
when the credential is longer than 12 characters, and the fully-masked
string otherwise. -/
theorem c4_warning_callbacks (key : String) (result : VerifyResult)
    (b : BudgetInfo) (hb : result.budget = some b)
    (hw : b.warningExceeded = true) :
    verifyCallbackEvents key result true true =
      [CbEvent.perCall (mkBudgetWarningInfo key b),
       CbEvent.globalCb (mkBudgetWarningInfo key b)] ∧
    (mkBudgetWarningInfo key b).percentUsed = ((b.spent : ℚ) / (b.limit : ℚ)) * 100 ∧
    (12 < key.length →
      (mkBudgetWarningInfo key b).keyHint =
        String.mk (key.data.take 8) ++ "..." ++
          String.mk (key.data.drop (key.length - 4))) ∧
    (key.length ≤ 12 → (mkBudgetWarningInfo key b).keyHint = "***") := by
  refine ⟨?_, rfl, ?_, ?_⟩
  · simp [verifyCallbackEvents, hb, hw]
  · intro h
    show maskKey key = _
    rw [maskKey, if_neg (by omega)]
  · intro h
    show maskKey key = _
    rw [maskKey, if_pos h]

/-- Claim C4, witness: the 24-character credential
hk_live_abcdefghijklmnop with budget limit 100 and spent 80 produces the
two callback invocations in order, with percentUsed 80 and keyHint
hk_live_...mnop. -/
theorem c4_warning_callbacks_witness :
    verifyCallbackEvents "hk_live_abcdefghijklmnop"
      ⟨true, ⟨99, 100, 0⟩, ⟨5, 10, "2026-02-01T00:00:00Z"⟩, "pro", [],
        some ⟨100, 80, 20, 75, true, "2026-01-01T00:00:00Z"⟩, none⟩ true true =
      [CbEvent.perCall ⟨⟨100, 80, 20, 75, true, "2026-01-01T00:00:00Z"⟩, 80,
          "hk_live_...mnop"⟩,
       CbEvent.globalCb ⟨⟨100, 80, 20, 75, true, "2026-01-01T00:00:00Z"⟩, 80,
          "hk_live_...mnop"⟩] := by
  have h := c4_warning_callbacks "hk_live_abcdefghijklmnop"
    ⟨true, ⟨99, 100, 0⟩, ⟨5, 10, "2026-02-01T00:00:00Z"⟩, "pro", [],
      some ⟨100, 80, 20, 75, true, "2026-01-01T00:00:00Z"⟩, none⟩
    ⟨100, 80, 20, 75, true, "2026-01-01T00:00:00Z"⟩ rfl rfl
  have hinfo : mkBudgetWarningInfo "hk_live_abcdefghijklmnop"
      ⟨100, 80, 20, 75, true, "2026-01-01T00:00:00Z"⟩ =
      ⟨⟨100, 80, 20, 75, true, "2026-01-01T00:00:00Z"⟩, 80, "hk_live_...mnop"⟩ := by
    unfold mkBudgetWarningInfo
    congr 1
    norm_num
  rw [h.1, hinfo]

/-- Claim C5: client construction fails with the generic SDK error when
the credential is empty or lacks every recognized marker, before any
network call (construction performs none in this model), and succeeds for
every credential bearing one of the four markers. -/
theorem c5_construction (config : HoldifyConfig) :
    (config.apiKey = "" →
      mkHoldify config = Except.error (SdkError.generic "API key is required" none none)) ∧
    (keyFormatOk config.apiKey = false →
      ∃ m, mkHoldify config = Except.error (SdkError.generic m none none)) ∧
    (keyFormatOk config.apiKey = true →
      ∃ c, mkHoldify config = Except.ok c) := by
  refine ⟨?_, ?_, ?_⟩
  · intro h
    simp [mkHoldify, h]
  · intro h
    by_cases he : config.apiKey = ""
    · exact ⟨"API key is required", by simp [mkHoldify, he]⟩
    · refine ⟨"Invalid API key format. Key must start with one of: " ++
        String.intercalate ", " API_KEY_PREFIXES, ?_⟩
      simp [mkHoldify, he, h]
  · intro h
    have he : config.apiKey ≠ "" := by
      intro he
      rw [he] at h
      exact absurd h (by decide)
    refine ⟨{ apiKey := config.apiKey
              baseUrl := jsOr config.baseUrl OFFICIAL_BASE_URL
              timeout := jsNumOr config.timeout 10000
              hasOnBudgetWarning := config.hasOnBudgetWarning }, ?_⟩
    simp [mkHoldify, he, h]

/-- Claim C5, witness: a credential with the hk_live_ marker constructs
successfully, and one without any recognized marker is rejected with the
generic SDK error. -/
theorem c5_construction_witness :
    (∃ c, mkHoldify ⟨"hk_live_abc", none, none, false⟩ = Except.ok c) ∧
    (∃ m, mkHoldify ⟨"sk_bad_key", none, none, false⟩ =
      Except.error (SdkError.generic m none none)) :=
  ⟨(c5_construction ⟨"hk_live_abc", none, none, false⟩).2.2 (by decide),
   (c5_construction ⟨"sk_bad_key", none, none, false⟩).2.1 (by decide)⟩

/-- Claim C6: on any success-status response, an analyze-prompt body with
blocked = true makes the operation fail with PromptBlocked carrying the
body's riskScore and threats and, when a non-empty explanation is
present, that explanation as message; a body with blocked = false is
returned as the result. -/
theorem c6_prompt_blocked (resp : HttpResponse) (body : AnalyzePromptResult)
    (hok : responseOk resp.status = true) :
    (body.blocked = true →
      analyzePrompt resp body = Except.error (SdkError.promptBlocked
        (jsOr body.explanation "Prompt blocked due to security policy")
        body.riskScore body.threats) ∧
      (∀ ex, body.explanation = some ex → ex ≠ "" →
        jsOr body.explanation "Prompt blocked due to security policy" = ex)) ∧
    (body.blocked = false → analyzePrompt resp body = Except.ok body) := by
  constructor
  · intro hb
    constructor
    · simp [analyzePrompt, hok, hb]
    · intro ex hex hne
      rw [hex]
      simp [jsOr, hne]
  · intro hb
    simp [analyzePrompt, hok, hb]

/-- Claim C6, witness: a 200 response whose body is blocked with
riskScore 92, one injection threat and explanation "Injection detected"
fails with PromptBlocked carrying exactly those. -/
theorem c6_prompt_blocked_witness :
    analyzePrompt ⟨200, none, none⟩
      ⟨false, true, 92, [⟨"injection", 95, "Prompt injection attempt"⟩],
        "block", some "Injection detected"⟩ =
    Except.error (SdkError.promptBlocked "Injection detected" 92
      [⟨"injection", 95, "Prompt injection attempt"⟩]) := by
  have h := ((c6_prompt_blocked ⟨200, none, none⟩
    ⟨false, true, 92, [⟨"injection", 95, "Prompt injection attempt"⟩],
      "block", some "Injection detected"⟩ (by decide)).1 rfl).1
  exact h.trans (by rfl)

/-- Claim C7: every 402 response fails with BudgetExceeded whose limit,
spent, remaining and resetAt come from the response body's error object
and whose status code is 402. -/
theorem c7_budget_exceeded (resp : HttpResponse) (e : ErrorBody)
    (h402 : resp.status = 402) (hbody : resp.errorBody = some e) :
    handleErrorResponse resp =
      SdkError.budgetExceeded (e.message.getD "Budget limit exceeded")
        e.limit e.spent e.remaining e.resetAt ∧
    (handleErrorResponse resp).statusCode = some 402 := by
  have h : handleErrorResponse resp =
      SdkError.budgetExceeded (e.message.getD "Budget limit exceeded")
        e.limit e.spent e.remaining e.resetAt := by
    simp [handleErrorResponse, h402, hbody]
  exact ⟨h, by rw [h]; rfl⟩

/-- Claim C7, witness: a 402 response with error fields message
"over budget", limit 1000, spent 1200, remaining 0 and a reset timestamp
fails with BudgetExceeded carrying exactly those fields and status 402. -/
theorem c7_budget_exceeded_witness :
    handleErrorResponse ⟨402, none, some ⟨some "over budget",
        some "BUDGET_EXCEEDED", some 1000, some 1200, some 0,
        some "2026-02-01T00:00:00Z", none⟩⟩ =
      SdkError.budgetExceeded "over budget" (some 1000) (some 1200) (some 0)
        (some "2026-02-01T00:00:00Z") ∧
    (handleErrorResponse ⟨402, none, some ⟨some "over budget",
        some "BUDGET_EXCEEDED", some 1000, some 1200, some 0,
        some "2026-02-01T00:00:00Z", none⟩⟩).statusCode = some 402 := by
  have h := c7_budget_exceeded ⟨402, none, some ⟨some "over budget",
    some "BUDGET_EXCEEDED", some 1000, some 1200, some 0,
    some "2026-02-01T00:00:00Z", none⟩⟩ ⟨some "over budget",
    some "BUDGET_EXCEEDED", some 1000, some 1200, some 0,
    some "2026-02-01T00:00:00Z", none⟩ rfl rfl
  exact ⟨h.1.trans (by rfl), h.2⟩

/-- Claim C8: the default credential extraction tries the Authorization
header's Bearer token first, then the x-api-key header, then (with a
logged warning) the api_key query parameter; when none yields a
credential the middleware raises the MissingKey error with status 401
before any verify (network) call. -/
theorem c8_key_extraction (req : MwRequest) :
    (∀ a, req.authorization = some a → jsStartsWith a "Bearer " = true →
      defaultGetKey req = ⟨some (String.mk (a.data.drop 7)), false⟩) ∧
    (bearerMatches req = false → jsTruthy req.xApiKeyHeader = true →
      defaultGetKey req = ⟨req.xApiKeyHeader, false⟩) ∧
    (bearerMatches req = false → jsTruthy req.xApiKeyHeader = false →
      jsTruthy req.apiKeyQuery = true →
      defaultGetKey req = ⟨req.apiKeyQuery, true⟩) ∧
    (bearerMatches req = false → jsTruthy req.xApiKeyHeader = false →
      jsTruthy req.apiKeyQuery = false →
      defaultGetKey req = ⟨none, false⟩ ∧
      middlewareStep req =
        MwOutcome.errorHandled "MISSING_KEY" "API key is required" 401) := by
  have hfb : bearerMatches req = false → defaultGetKey req = keyFallback req := by
    intro h
    cases ha : req.authorization with
    | none => simp [defaultGetKey, ha]
    | some a =>
      have hba : jsStartsWith a "Bearer " = false := by
        simpa [bearerMatches, ha] using h
      simp [defaultGetKey, ha, hba]
  refine ⟨?_, ?_, ?_, ?_⟩
  · intro a ha hpre
    simp [defaultGetKey, ha, hpre]
  · intro hb hx
    rw [hfb hb]
    simp [keyFallback, hx]
  · intro hb hx hq
    rw [hfb hb]
    simp [keyFallback, hx, hq]
  · intro hb hx hq
    have hk : defaultGetKey req = ⟨none, false⟩ := by
      rw [hfb hb]
      simp [keyFallback, hx, hq]
    exact ⟨hk, by simp [middlewareStep, hk]⟩

/-- Claim C8, witness: a request carrying no Authorization header, no
x-api-key header and no api_key query parameter is answered with the
MissingKey error, status 401, with no verify call. -/
theorem c8_key_extraction_witness :
    middlewareStep ⟨none, none, none⟩ =
      MwOutcome.errorHandled "MISSING_KEY" "API key is required" 401 :=
  ((c8_key_extraction ⟨none, none, none⟩).2.2.2 rfl rfl rfl).2

/-- Claim C9: when the wrapped provider create call throws, the wrapper
issues no reportUsage call and returns the provider's exception
unchanged; when the provider call succeeds, the caller receives the
provider's response unchanged for every possible outcome of the
fire-and-forget reportUsage call, so a reporting failure never
propagates. -/
theorem c9_wrapper_isolation (apiKey : String) (requestId : Option String)
    (report : ReportUsageCall → Except JsThrow Unit) :
    (∀ e, wrappedCreate apiKey requestId (ProviderOutcome.threw e) report =
      { result := ProviderOutcome.threw e, reports := [], warningsLogged := [] }) ∧
    (∀ resp, (wrappedCreate apiKey requestId (ProviderOutcome.ok resp) report).result =
      ProviderOutcome.ok resp) := by
  constructor
  · intro e
    rfl
  · intro resp
    obtain ⟨usage, model⟩ := resp
    cases usage with
    | none => rfl
    | some u =>
      simp only [wrappedCreate]
      split <;> rfl

/-- Claim C10: has answers exactly whether get would return a value, and
on an entry whose expiry has strictly passed but which the sweep has not
yet removed, has answers false and removes the entry, shrinking the
store size by one. -/
theorem c10_has_agrees_get {α : Type} (c : Cache α) (now : Int) (key : String) :
    (Cache.has c now key).1 = ((Cache.get c now key).1).isSome ∧
    (∀ e, storeFind c.store key = some e → now > e.expiresAt →
      (Cache.has c now key).1 = false ∧
      (Cache.has c now key).2.size + 1 = c.size) := by
  constructor
  · rfl
  · intro e hf hlt
    have hget : Cache.get c now key =
        (none, { defaultTtl := c.defaultTtl, store := storeDelete c.store key }) := by
      unfold Cache.get
      rw [hf]
      simp [hlt]
    obtain ⟨pe, hpe⟩ : ∃ pe, c.store.find? (fun p => p.1 == key) = some pe := by
      unfold storeFind at hf
      cases hfind : c.store.find? (fun p => p.1 == key) with
      | none => rw [hfind] at hf; simp at hf
      | some pe => exact ⟨pe, rfl⟩
    constructor
    · simp [Cache.has, hget]
    · show (Cache.get c now key).2.size + 1 = c.size
      rw [hget]
      show (storeDelete c.store key).length + 1 = c.store.length
      unfold storeDelete
      have hmem := List.mem_of_find?_eq_some hpe
      have hpa := List.find?_some hpe
      exact List.length_eraseP_add_one hmem hpa

/-- Claim C10, witness: on a store holding one entry with expiry instant
100, read at time 101, has answers false and the store size drops from 1
to 0. -/
theorem c10_has_agrees_get_witness :
    (Cache.has (⟨300000, [("k", ⟨(7 : Nat), 100⟩)]⟩ : Cache Nat) 101 "k").1 = false ∧
    (Cache.has (⟨300000, [("k", ⟨(7 : Nat), 100⟩)]⟩ : Cache Nat) 101 "k").2.size + 1 =
      (⟨300000, [("k", ⟨(7 : Nat), 100⟩)]⟩ : Cache Nat).size :=
  (c10_has_agrees_get ⟨300000, [("k", ⟨(7 : Nat), 100⟩)]⟩ 101 "k").2
    ⟨7, 100⟩ rfl (by decide)

end HoldifySdk
